import Mathlib

/-!
Shallow embedding of the AR-CHESS server core (src/server-app/main.py):
matchmaking ticket registry, pairing engine, move ledger and match-state
projector.  Rows of the four Postgres tables become Lean structures, a
database snapshot is a quadruple of row lists, timestamps and UUIDs are
naturals, and every operation is an explicit state-passing function whose
error paths return Except values (a raised HTTPException rolls the
transaction back, so error results carry no database change).
-/

namespace ARChess

/-- Ticket lifecycle statuses stored in the tickets.status column. -/
inductive TicketStatus where
  | queued
  | matched
  | cancelled
  | expired
deriving DecidableEq, Repr

/-- A row of the tickets table. -/
structure TicketRow where
  id : Nat
  player_id : Nat
  status : TicketStatus
  heartbeat_at : Nat
  expires_at : Nat
  match_id : Option Nat
  created_at : Nat
  updated_at : Nat
deriving DecidableEq, Repr

/-- A row of the matches table. -/
structure MatchRow where
  id : Nat
  game_id : Nat
  white_player_id : Nat
  black_player_id : Nat
  status : String
  created_at : Nat
  updated_at : Nat
deriving DecidableEq, Repr

/-- A row of the game_moves table. -/
structure MoveRow where
  game_id : Nat
  ply : Nat
  move_uci : String
  player_id : Option Nat
  created_at : Nat
deriving DecidableEq, Repr

/-- A database snapshot: the four tables touched by the core. -/
structure DB where
  games : List Nat
  game_moves : List MoveRow
  matchRows : List MatchRow
  tickets : List TicketRow
deriving DecidableEq, Repr

/-- The projected match state built by current_match_state. -/
structure MatchState where
  match_id : Nat
  game_id : Nat
  status : String
  white_player_id : Nat
  black_player_id : Nat
  your_color : Option String
  latest_ply : Nat
  next_turn : String
  moves : List MoveRow
deriving DecidableEq, Repr

/-- The ticket payload built by ticket_response_for_row. -/
structure TicketResponse where
  ticket_id : Nat
  player_id : Nat
  status : TicketStatus
  match_id : Option Nat
  assigned_color : Option String
  heartbeat_at : Nat
  expires_at : Nat
deriving DecidableEq, Repr

/-- Error taxonomy of the operations: each constructor is one HTTPException
shape raised by main.py (404, 403, plain 409, 409 with embedded state,
422 request validation, 500). -/
inductive ApiErr where
  | notFound (msg : String)
  | forbidden (msg : String)
  | conflictMsg (msg : String)
  | conflictState (msg : String) (st : MatchState)
  | invalidRequest (msg : String)
  | internal (msg : String)
deriving DecidableEq, Repr

/-- TICKET_TTL_SECONDS with its source default of 30. -/
def TICKET_TTL_SECONDS : Nat := 30

/-- ticket_expiry_from_now: utcnow() + timedelta(seconds=TICKET_TTL_SECONDS). -/
def ticket_expiry_from_now (now : Nat) : Nat := now + TICKET_TTL_SECONDS

/-- Insertion step of the order-by model used for SQL ORDER BY clauses. -/
def ordInsert (le : α → α → Bool) (a : α) : List α → List α
  | [] => [a]
  | b :: l => if le a b then a :: b :: l else b :: ordInsert le a l

/-- Stable sort modelling SQL ORDER BY. -/
def ordSort (le : α → α → Bool) : List α → List α
  | [] => []
  | a :: l => ordInsert le a (ordSort le l)

/-- The per-row effect of the lazy expiry UPDATE: a queued ticket whose
expires_at has passed becomes expired, every other row is untouched. -/
def sweepOne (now : Nat) (t : TicketRow) : TicketRow :=
  if t.status = TicketStatus.queued ∧ t.expires_at < now then
    { t with status := TicketStatus.expired, updated_at := now }
  else t

/-- expire_stale_tickets: UPDATE tickets SET status = expired, updated_at = NOW()
WHERE status = queued AND expires_at < NOW(). -/
def expire_stale_tickets (now : Nat) (db : DB) : DB :=
  { db with tickets := db.tickets.map (sweepOne now) }

/-- next_turn_for_ply: white when the latest ply is even, black when odd. -/
def next_turn_for_ply (latest_ply : Nat) : String :=
  if latest_ply % 2 = 0 then "white" else "black"

/-- color_for_player: the color of a player inside a match row, none if the
player is not a participant. -/
def color_for_player (m : MatchRow) (player_id : Nat) : Option String :=
  if player_id = m.white_player_id then some "white"
  else if player_id = m.black_player_id then some "black"
  else none

/-- fetch_match_row: SELECT ... FROM matches WHERE id = %s. -/
def fetch_match_row (db : DB) (match_id : Nat) : Option MatchRow :=
  db.matchRows.find? (fun m => decide (m.id = match_id))

/-- fetch_ticket_row: SELECT ... FROM tickets WHERE id = %s
[AND player_id = %s], the optional ownership filter of the source. -/
def fetch_ticket_row (db : DB) (ticket_id : Nat) (player_id : Option Nat) :
    Option TicketRow :=
  db.tickets.find? (fun t =>
    decide (t.id = ticket_id ∧ (player_id = none ∨ player_id = some t.player_id)))

/-- fetch_match_moves_for_match: moves of one game with ply > after_ply,
ORDER BY ply ASC. -/
def fetch_match_moves_for_match (db : DB) (game_id : Nat) (after_ply : Nat) :
    List MoveRow :=
  ordSort (fun a b => decide (a.ply ≤ b.ply))
    (db.game_moves.filter (fun r => decide (r.game_id = game_id ∧ after_ply < r.ply)))

/-- The pure projection at the heart of current_match_state: match row plus
ordered move list plus optional requesting player. -/
def projectMatchState (m : MatchRow) (moves : List MoveRow) (player_id : Option Nat) :
    MatchState :=
  let latest_ply := ((moves.getLast?).map MoveRow.ply).getD 0
  { match_id := m.id
    game_id := m.game_id
    status := m.status
    white_player_id := m.white_player_id
    black_player_id := m.black_player_id
    your_color := match player_id with
      | some p => color_for_player m p
      | none => none
    latest_ply := latest_ply
    next_turn := next_turn_for_ply latest_ply
    moves := moves }

/-- current_match_state up to the 404 raise: none when the match row is absent. -/
def currentMatchState? (db : DB) (match_id : Nat) (player_id : Option Nat) :
    Option MatchState :=
  (fetch_match_row db match_id).map (fun m =>
    projectMatchState m (fetch_match_moves_for_match db m.game_id 0) player_id)

/-- current_match_state: raises 404 when the match row is absent. -/
def current_match_state (db : DB) (match_id : Nat) (player_id : Option Nat) :
    Except ApiErr MatchState :=
  match currentMatchState? db match_id player_id with
  | some st => Except.ok st
  | none => Except.error (ApiErr.notFound "Match not found.")

/-- build_conflict_detail wrapped into the 409 it is raised with: the detail
carries the message and the full projected state; a missing match inside the
nested current_match_state call surfaces as its 404. -/
def build_conflict_detail (db : DB) (match_id : Nat) (player_id : Nat)
    (message : String) : ApiErr :=
  match currentMatchState? db match_id (some player_id) with
  | some st => ApiErr.conflictState message st
  | none => ApiErr.notFound "Match not found."

/-- SELECT COALESCE(MAX(ply), 0) FROM game_moves WHERE game_id = %s. -/
def maxPly (moves : List MoveRow) (game_id : Nat) : Nat :=
  (moves.filter (fun r => decide (r.game_id = game_id))).foldr
    (fun r acc => max r.ply acc) 0

/-- save_game_move: upsert of one game move, ON CONFLICT (game_id, ply)
DO UPDATE SET move_uci = EXCLUDED.move_uci, RETURNING the stored row. -/
def save_game_move (db : DB) (game_id ply : Nat) (move_uci : String) (now : Nat) :
    MoveRow × DB :=
  match db.game_moves.find? (fun r => decide (r.game_id = game_id ∧ r.ply = ply)) with
  | some r =>
      ({ r with move_uci := move_uci },
       { db with game_moves := db.game_moves.map (fun x =>
           if x.game_id = game_id ∧ x.ply = ply then { x with move_uci := move_uci }
           else x) })
  | none =>
      let row : MoveRow :=
        { game_id := game_id, ply := ply, move_uci := move_uci,
          player_id := none, created_at := now }
      (row, { db with game_moves := db.game_moves ++ [row] })

/-- record_queue_match_move.  The argument committed models rows of
game_moves committed by concurrent transactions between the
COALESCE(MAX(ply)) read and the INSERT (the race window the source closes
with the uniqueness constraint); a sequential run has committed = [].
Raised HTTPExceptions roll the transaction back, so error results return
the ledger without this call's write. -/
def record_queue_match_move (db : DB) (committed : List MoveRow)
    (match_id player_id ply : Nat) (move_uci : String) (now : Nat) :
    Except ApiErr MoveRow × DB :=
  match fetch_match_row db match_id with
  | none => (Except.error (ApiErr.notFound "Match not found."), db)
  | some m =>
    if m.status ≠ "active" then
      (Except.error (ApiErr.conflictMsg "Match is not active."), db)
    else
      match color_for_player m player_id with
      | none =>
          (Except.error (ApiErr.forbidden "Player is not part of this match."), db)
      | some player_color =>
        if player_color ≠ next_turn_for_ply (maxPly db.game_moves m.game_id) then
          (Except.error (build_conflict_detail db match_id player_id
              ("It is " ++ next_turn_for_ply (maxPly db.game_moves m.game_id)
                ++ "\x27s turn.")), db)
        else if ply ≠ maxPly db.game_moves m.game_id + 1 then
          (Except.error (build_conflict_detail db match_id player_id
              ("Expected ply " ++ toString (maxPly db.game_moves m.game_id + 1)
                ++ ", received " ++ toString ply ++ ".")), db)
        else if (db.game_moves ++ committed).any
            (fun r => decide (r.game_id = m.game_id ∧ r.ply = ply)) then
          (Except.error (build_conflict_detail
              { db with game_moves := db.game_moves ++ committed }
              match_id player_id "This ply is already recorded on the server."),
           { db with game_moves := db.game_moves ++ committed })
        else
          (Except.ok
            { game_id := m.game_id, ply := ply, move_uci := move_uci,
              player_id := some player_id, created_at := now },
           { db with
              game_moves := db.game_moves ++ committed ++
                [{ game_id := m.game_id, ply := ply, move_uci := move_uci,
                   player_id := some player_id, created_at := now }],
              matchRows := db.matchRows.map (fun x =>
                if x.id = match_id then { x with updated_at := now } else x) })

/-- Predicate of the active-ticket lookups: status IN (queued, matched) for
one player. -/
def activeFor (player_id : Nat) (t : TicketRow) : Bool :=
  decide (t.player_id = player_id ∧
    (t.status = TicketStatus.queued ∨ t.status = TicketStatus.matched))

/-- The active-ticket SELECT of ensure_player_ticket: player's queued or
matched ticket, ORDER BY created_at DESC LIMIT 1. -/
def activeTicketFor (db : DB) (player_id : Nat) : Option TicketRow :=
  (ordSort (fun a b => decide (b.created_at ≤ a.created_at))
    (db.tickets.filter (activeFor player_id))).head?

/-- The SET clause shared by the refresh UPDATEs of ensure_player_ticket and
heartbeat_matchmaking_ticket: heartbeat_at = NOW(), expires_at extended by
the TTL, updated_at = NOW(). -/
def refreshTicket (t : TicketRow) (now : Nat) : TicketRow :=
  { t with heartbeat_at := now, expires_at := ticket_expiry_from_now now,
           updated_at := now }

/-- The VALUES clause of the ticket INSERT of ensure_player_ticket. -/
def newTicket (player_id now newTicketId : Nat) : TicketRow :=
  { id := newTicketId, player_id := player_id, status := TicketStatus.queued,
    heartbeat_at := now, expires_at := ticket_expiry_from_now now,
    match_id := none, created_at := now, updated_at := now }

/-- ensure_player_ticket: refresh the player's queued ticket, return a
matched one unchanged, otherwise insert a fresh queued ticket (the ON
CONFLICT DO NOTHING fallback re-selects and raises 409 when even the
re-select finds nothing). -/
def ensure_player_ticket (db : DB) (player_id now newTicketId : Nat) :
    Except ApiErr (TicketRow × DB) :=
  match activeTicketFor db player_id with
  | some t =>
    if t.status = TicketStatus.queued then
      Except.ok (refreshTicket t now,
        { db with tickets := db.tickets.map (fun x =>
            if x.id = t.id then refreshTicket x now else x) })
    else Except.ok (t, db)
  | none =>
    if db.tickets.any (activeFor player_id) then
      match activeTicketFor db player_id with
      | some t => Except.ok (t, db)
      | none => Except.error
          (ApiErr.conflictMsg "Could not establish a matchmaking ticket.")
    else
      Except.ok (newTicket player_id now newTicketId,
        { db with tickets := db.tickets ++ [newTicket player_id now newTicketId] })

/-- The candidate SELECT of try_pair_ticket: queued, unmatched, unexpired
tickets of other players, ORDER BY created_at ASC LIMIT 1 (FOR UPDATE SKIP
LOCKED never skips in a single-transaction run). -/
def pairCandidate (db : DB) (t : TicketRow) (now : Nat) : Option TicketRow :=
  (ordSort (fun a b => decide (a.created_at ≤ b.created_at))
    (db.tickets.filter (fun c => decide
      (c.status = TicketStatus.queued ∧ c.match_id = none ∧
       now ≤ c.expires_at ∧ c.player_id ≠ t.player_id)))).head?

/-- The VALUES clause of the match INSERT of try_pair_ticket, with the
color-assignment expressions of the source: white goes to the candidate
when its created_at is less than or equal to the invoking ticket's. -/
def matchFromTickets (t other : TicketRow) (now newMatchId newGameId : Nat) :
    MatchRow :=
  { id := newMatchId, game_id := newGameId,
    white_player_id :=
      if other.created_at ≤ t.created_at then other.player_id else t.player_id,
    black_player_id :=
      if (if other.created_at ≤ t.created_at then other.player_id else t.player_id)
          = other.player_id then t.player_id
      else other.player_id,
    status := "active", created_at := now, updated_at := now }

/-- The SET clause of the ticket UPDATE of try_pair_ticket applied to the
two paired rows: matched, match_id attached, expiry refreshed. -/
def matchedTicket (x : TicketRow) (now newMatchId : Nat) : TicketRow :=
  { x with status := TicketStatus.matched, match_id := some newMatchId,
           updated_at := now, expires_at := ticket_expiry_from_now now }

/-- The database state written by the pairing block of try_pair_ticket:
the new game, the new match, and both tickets marked matched. -/
def pairedDB (db : DB) (t other : TicketRow) (now newMatchId newGameId : Nat) :
    DB :=
  { db with
    games := db.games ++ [newGameId],
    matchRows := db.matchRows ++ [matchFromTickets t other now newMatchId newGameId],
    tickets := db.tickets.map (fun x =>
      if x.id = t.id ∨ x.id = other.id then matchedTicket x now newMatchId
      else x) }

/-- try_pair_ticket: pair a queued ticket with the earliest eligible
candidate, creating the game and the match and marking both tickets
matched, then re-fetch the invoking ticket. -/
def try_pair_ticket (db : DB) (t : TicketRow) (now newMatchId newGameId : Nat) :
    Except ApiErr (TicketRow × DB) :=
  if t.status ≠ TicketStatus.queued then Except.ok (t, db)
  else
    match pairCandidate db t now with
    | none => Except.ok (t, db)
    | some other =>
      if other.player_id = t.player_id then Except.ok (t, db)
      else
        match (pairedDB db t other now newMatchId newGameId).tickets.find?
            (fun x => decide (x.id = t.id)) with
        | none => Except.error (ApiErr.internal "Could not refresh matched ticket.")
        | some rt => Except.ok (rt, pairedDB db t other now newMatchId newGameId)

/-- ticket_response_for_row: the ticket payload, with assigned_color looked
up through the referenced match when the ticket carries one. -/
def ticket_response_for_row (db : DB) (t : TicketRow) : TicketResponse :=
  let assigned_color := match t.match_id with
    | some mid =>
      match fetch_match_row db mid with
      | some m => color_for_player m t.player_id
      | none => none
    | none => none
  { ticket_id := t.id, player_id := t.player_id, status := t.status,
    match_id := t.match_id, assigned_color := assigned_color,
    heartbeat_at := t.heartbeat_at, expires_at := t.expires_at }

/-- enqueue_player_for_matchmaking: sweep, ensure the player's ticket, try
to pair it, and answer with a ticket payload.  Fresh UUIDs drawn by the
source are passed as the three id arguments. -/
def enqueue_player_for_matchmaking (db : DB)
    (player_id now newTicketId newMatchId newGameId : Nat) :
    Except ApiErr (TicketResponse × DB) :=
  match ensure_player_ticket (expire_stale_tickets now db) player_id now newTicketId with
  | Except.error e => Except.error e
  | Except.ok (t, db2) =>
    match try_pair_ticket db2 t now newMatchId newGameId with
    | Except.error e => Except.error e
    | Except.ok (t2, db3) => Except.ok (ticket_response_for_row db3 t2, db3)

/-- heartbeat_matchmaking_ticket: sweep, fetch the owned ticket (404 when
absent), return terminal tickets unchanged, otherwise refresh and try to
pair. -/
def heartbeat_matchmaking_ticket (db : DB)
    (ticket_id player_id now newMatchId newGameId : Nat) :
    Except ApiErr (TicketResponse × DB) :=
  match fetch_ticket_row (expire_stale_tickets now db) ticket_id (some player_id) with
  | none => Except.error (ApiErr.notFound "Ticket not found.")
  | some t =>
    if t.status = TicketStatus.cancelled ∨ t.status = TicketStatus.expired then
      Except.ok (ticket_response_for_row (expire_stale_tickets now db) t,
        expire_stale_tickets now db)
    else
      match try_pair_ticket
          { expire_stale_tickets now db with
            tickets := (expire_stale_tickets now db).tickets.map (fun x =>
              if x.id = ticket_id then refreshTicket x now else x) }
          (refreshTicket t now) now newMatchId newGameId with
      | Except.error e => Except.error e
      | Except.ok (t3, db3) => Except.ok (ticket_response_for_row db3 t3, db3)

/-- get_matchmaking_ticket: sweep, then a pure fetch with the optional
ownership filter (404 when absent). -/
def get_matchmaking_ticket (db : DB) (ticket_id : Nat) (player_id : Option Nat)
    (now : Nat) : Except ApiErr (TicketResponse × DB) :=
  match fetch_ticket_row (expire_stale_tickets now db) ticket_id player_id with
  | none => Except.error (ApiErr.notFound "Ticket not found.")
  | some t => Except.ok (ticket_response_for_row (expire_stale_tickets now db) t,
      expire_stale_tickets now db)

/-- cancel_matchmaking_ticket.  Faithful to the source: this operation does
NOT run the expire_stale_tickets sweep.  404 when absent or not owned, 409
when matched, otherwise the ticket becomes cancelled. -/
def cancel_matchmaking_ticket (db : DB) (ticket_id player_id now : Nat) :
    Except ApiErr (TicketResponse × DB) :=
  match fetch_ticket_row db ticket_id (some player_id) with
  | none => Except.error (ApiErr.notFound "Ticket not found.")
  | some t =>
    if t.status = TicketStatus.matched then
      Except.error (ApiErr.conflictMsg "Matched tickets cannot be cancelled.")
    else
      Except.ok
        (ticket_response_for_row
          { db with tickets := db.tickets.map (fun x =>
              if x.id = ticket_id then
                { x with status := TicketStatus.cancelled, updated_at := now }
              else x) }
          { t with status := TicketStatus.cancelled, updated_at := now },
         { db with tickets := db.tickets.map (fun x =>
             if x.id = ticket_id then
               { x with status := TicketStatus.cancelled, updated_at := now }
             else x) })

/-- The whitespace set of Python str.strip on ASCII input. -/
def isPySpace (c : Char) : Bool :=
  c = ' ' || c = '\t' || c = '\n' || c = '\r' || c = '\x0b' || c = '\x0c'

/-- Python value.strip(): drop leading and trailing whitespace. -/
def pyStrip (s : String) : String :=
  String.mk (((s.data.dropWhile isPySpace).reverse.dropWhile isPySpace).reverse)

/-- Python move.lower() on the move string (ASCII lowering). -/
def pyLower (s : String) : String :=
  String.mk (s.data.map Char.toLower)

/-- One character of the [a-h] file class, case-insensitive as the pattern
is compiled with re.IGNORECASE. -/
def isFileChar (c : Char) : Bool :=
  ('a' ≤ c.toLower) && (c.toLower ≤ 'h')

/-- One character of the [1-8] rank class. -/
def isRankChar (c : Char) : Bool :=
  ('1' ≤ c) && (c ≤ '8')

/-- One character of the [qrbn] promotion class, case-insensitive. -/
def isPromoChar (c : Char) : Bool :=
  c.toLower = 'q' || c.toLower = 'r' || c.toLower = 'b' || c.toLower = 'n'

/-- Full-string match of UCI_MOVE_PATTERN:
origin square, destination square, optional promotion letter. -/
def uciMatch (s : String) : Bool :=
  match s.data with
  | [a, b, c, d] => isFileChar a && isRankChar b && isFileChar c && isRankChar d
  | [a, b, c, d, e] =>
      isFileChar a && isRankChar b && isFileChar c && isRankChar d && isPromoChar e
  | _ => false

/-- GameMoveRequest.validate_uci_move: strip, lower, match the pattern;
some normalized move on success, none when the 422 validation error fires. -/
def validate_uci_move (value : String) : Option String :=
  if uciMatch (pyLower (pyStrip value)) then some (pyLower (pyStrip value)) else none

/-- The POST games moves route: request validation in front of
save_game_move. -/
def record_game_move_endpoint (db : DB) (game_id ply : Nat) (rawMove : String)
    (now : Nat) : Except ApiErr (MoveRow × DB) :=
  match validate_uci_move rawMove with
  | none => Except.error (ApiErr.invalidRequest
      "Move must be valid UCI notation such as e2e4, e1g1, or e7e8q.")
  | some mv => Except.ok (save_game_move db game_id ply mv now)

/-- The POST matches moves route: request validation in front of
record_queue_match_move. -/
def post_match_move_endpoint (db : DB) (committed : List MoveRow)
    (match_id player_id ply : Nat) (rawMove : String) (now : Nat) :
    Except ApiErr MoveRow × DB :=
  match validate_uci_move rawMove with
  | none => (Except.error (ApiErr.invalidRequest
      "Move must be valid UCI notation such as e2e4, e1g1, or e7e8q."), db)
  | some mv => record_queue_match_move db committed match_id player_id ply mv now

/-- Ticket-list provenance of the cancelled status: every cancelled ticket of
the output list descends from an already-cancelled ticket of the input list
with the same id. -/
def ProvCancel (lin lout : List TicketRow) : Prop :=
  ∀ t2 ∈ lout, t2.status = TicketStatus.cancelled →
    ∃ t0 ∈ lin, t0.id = t2.id ∧ t0.status = TicketStatus.cancelled

/-- No queued ticket of the list has an expires_at already in the past. -/
def NoStaleQueued (now : Nat) (l : List TicketRow) : Prop :=
  ∀ t ∈ l, t.status = TicketStatus.queued → now ≤ t.expires_at

/-- At most one active (queued or matched) ticket for the player: the
invariant the partial unique index tickets_one_active_per_player_idx
enforces in the store. -/
def UniqueActiveFor (p : Nat) (db : DB) : Prop :=
  ∀ t1 ∈ db.tickets, ∀ t2 ∈ db.tickets,
    activeFor p t1 = true → activeFor p t2 = true → t1 = t2

/-- The row a is the player's sole active ticket, in a database whose ticket
ids are pairwise distinct (the primary-key invariant). -/
def ActiveSingleton (p : Nat) (db : DB) (a : TicketRow) : Prop :=
  a ∈ db.tickets ∧ activeFor p a = true
    ∧ (∀ t1 ∈ db.tickets, activeFor p t1 = true → t1 = a)
    ∧ (db.tickets.map TicketRow.id).Nodup

/-- Invoking ticket of the pairing tie counterexample: player 1, created 5. -/
def tieTicketA : TicketRow :=
  { id := 1, player_id := 1, status := TicketStatus.queued, heartbeat_at := 0,
    expires_at := 100, match_id := none, created_at := 5, updated_at := 0 }

/-- Waiting ticket of the pairing tie counterexample: player 2, also created 5. -/
def tieTicketB : TicketRow :=
  { id := 2, player_id := 2, status := TicketStatus.queued, heartbeat_at := 0,
    expires_at := 100, match_id := none, created_at := 5, updated_at := 0 }

/-- Database of the pairing tie counterexample. -/
def dbTie : DB :=
  { games := [], game_moves := [], matchRows := [], tickets := [tieTicketA, tieTicketB] }

/-- The match created when tieTicketA invokes pairing against tieTicketB:
white goes to player 2 by the non-strict timestamp comparison. -/
def tieMatch : MatchRow :=
  { id := 9, game_id := 8, white_player_id := 2, black_player_id := 1,
    status := "active", created_at := 10, updated_at := 10 }

/-- tieTicketA after the pairing transaction. -/
def tieTicketA2 : TicketRow :=
  { id := 1, player_id := 1, status := TicketStatus.matched, heartbeat_at := 0,
    expires_at := 40, match_id := some 9, created_at := 5, updated_at := 10 }

/-- tieTicketB after the pairing transaction. -/
def tieTicketB2 : TicketRow :=
  { id := 2, player_id := 2, status := TicketStatus.matched, heartbeat_at := 0,
    expires_at := 40, match_id := some 9, created_at := 5, updated_at := 10 }

/-- The database after the tie pairing. -/
def dbTiePaired : DB :=
  { games := [8], game_moves := [], matchRows := [tieMatch],
    tickets := [tieTicketA2, tieTicketB2] }

/-- Database of the cancel-sweep counterexample: player 1 holds a live queued
ticket, player 2 holds a queued ticket whose expires_at = 5 lies in the past
at now = 100. -/
def dbCancelSweep : DB :=
  { games := [], game_moves := [], matchRows := [],
    tickets :=
      [{ id := 1, player_id := 1, status := TicketStatus.queued, heartbeat_at := 0,
         expires_at := 200, match_id := none, created_at := 0, updated_at := 0 },
       { id := 2, player_id := 2, status := TicketStatus.queued, heartbeat_at := 0,
         expires_at := 5, match_id := none, created_at := 0, updated_at := 0 }] }

/-- Database of the cancel-expired counterexample: one expired ticket. -/
def dbExpiredTicket : DB :=
  { games := [], game_moves := [], matchRows := [],
    tickets :=
      [{ id := 7, player_id := 1, status := TicketStatus.expired, heartbeat_at := 0,
         expires_at := 10, match_id := none, created_at := 0, updated_at := 0 }] }

/-- Database of the overwrite counterexample: one recorded move e2e4 at ply 1. -/
def dbOverwrite : DB :=
  { games := [1],
    game_moves :=
      [{ game_id := 1, ply := 1, move_uci := "e2e4", player_id := none, created_at := 0 }],
    matchRows := [], tickets := [] }

/-- Empty database of the repeated-enqueue counterexample. -/
def dbEmpty : DB :=
  { games := [], game_moves := [], matchRows := [], tickets := [] }

/-- Ticket payload answered by the first enqueue on the empty database at
now = 0 with fresh ticket id 11. -/
def respFirstEnqueue : TicketResponse :=
  { ticket_id := 11, player_id := 1, status := TicketStatus.queued,
    match_id := none, assigned_color := none, heartbeat_at := 0,
    expires_at := 30 }

/-- Database state after that first enqueue. -/
def dbAfterFirstEnqueue : DB :=
  { games := [], game_moves := [], matchRows := [],
    tickets := [{ id := 11, player_id := 1, status := TicketStatus.queued,
                  heartbeat_at := 0, expires_at := 30, match_id := none,
                  created_at := 0, updated_at := 0 }] }

/-- Ticket payload answered by the second enqueue at now = 10: same ticket
id, refreshed expiry. -/
def respSecondEnqueue : TicketResponse :=
  { ticket_id := 11, player_id := 1, status := TicketStatus.queued,
    match_id := none, assigned_color := none, heartbeat_at := 10,
    expires_at := 40 }

/-- Database state after that second enqueue. -/
def dbAfterSecondEnqueue : DB :=
  { games := [], game_moves := [], matchRows := [],
    tickets := [{ id := 11, player_id := 1, status := TicketStatus.queued,
                  heartbeat_at := 10, expires_at := 40, match_id := none,
                  created_at := 0, updated_at := 10 }] }

/-- Match of the race-window witness: game 3, white player 1, black player 2. -/
def raceMatch : MatchRow :=
  { id := 5, game_id := 3, white_player_id := 1, black_player_id := 2,
    status := "active", created_at := 0, updated_at := 0 }

/-- Database of the race-window witness: the active match with an empty ledger. -/
def dbRaceCase : DB :=
  { games := [3], game_moves := [], matchRows := [raceMatch], tickets := [] }

/-- The concurrently committed row of the race-window witness. -/
def racedRow : MoveRow :=
  { game_id := 3, ply := 1, move_uci := "e2e4", player_id := some 2, created_at := 1 }

theorem mem_ordInsert {le : α → α → Bool} {a x : α} {l : List α} :
    x ∈ ordInsert le a l ↔ x = a ∨ x ∈ l := by
  induction l with
  | nil => simp [ordInsert]
  | cons b t ih =>
    simp only [ordInsert]
    split
    · simp [List.mem_cons]
    · simp only [List.mem_cons, ih]
      tauto

theorem mem_ordSort {le : α → α → Bool} {x : α} {l : List α} :
    x ∈ ordSort le l ↔ x ∈ l := by
  induction l with
  | nil => simp [ordSort]
  | cons b t ih => simp [ordSort, mem_ordInsert, ih]

theorem ordInsert_ne_nil {le : α → α → Bool} {a : α} {l : List α} :
    ordInsert le a l ≠ [] := by
  cases l with
  | nil => simp [ordInsert]
  | cons b t =>
    simp only [ordInsert]
    split <;> simp

theorem ordSort_eq_nil_iff {le : α → α → Bool} {l : List α} :
    ordSort le l = [] ↔ l = [] := by
  cases l with
  | nil => simp [ordSort]
  | cons a t => simp [ordSort, ordInsert_ne_nil]

theorem head?_some_mem {l : List α} {a : α} (h : l.head? = some a) : a ∈ l := by
  cases l with
  | nil => simp at h
  | cons b t =>
    simp only [List.head?] at h
    cases h
    exact List.mem_cons_self _ _

theorem sorted_getLast_eq_foldr_max {l : List MoveRow}
    (h : l.Pairwise (fun a b => a.ply ≤ b.ply)) :
    ((l.getLast?).map MoveRow.ply).getD 0
      = l.foldr (fun r acc => max r.ply acc) 0 := by
  induction l with
  | nil => rfl
  | cons a t ih =>
    cases t with
    | nil => simp
    | cons b u =>
      have hpw := List.pairwise_cons.mp h
      have ih2 := ih hpw.2
      have hab : a.ply ≤ b.ply := hpw.1 b (List.mem_cons_self _ _)
      have hble : b.ply ≤ (b :: u).foldr (fun r acc => max r.ply acc) 0 := by
        simp only [List.foldr]
        exact Nat.le_max_left _ _
      rw [List.getLast?_cons_cons, ih2]
      simp only [List.foldr]
      omega

/-- Claim C8: for every match row, ordered move list and optional requesting
player, the projected state's latest_ply is the last move's ply (0 when the
list is empty, equivalently the maximum recorded ply), next_turn is white on
even latest_ply and black on odd, and your_color is present exactly when the
requester is one of the two participants. -/
theorem C8_projected_state (m : MatchRow) (moves : List MoveRow)
    (player_id : Option Nat)
    (h : moves.Pairwise (fun a b => a.ply ≤ b.ply)) :
    (projectMatchState m moves player_id).latest_ply
        = ((moves.getLast?).map MoveRow.ply).getD 0
    ∧ (projectMatchState m moves player_id).latest_ply
        = moves.foldr (fun r acc => max r.ply acc) 0
    ∧ (moves = [] → (projectMatchState m moves player_id).latest_ply = 0)
    ∧ (projectMatchState m moves player_id).next_turn
        = (if (projectMatchState m moves player_id).latest_ply % 2 = 0
           then "white" else "black")
    ∧ ((projectMatchState m moves player_id).your_color ≠ none ↔
        ∃ p, player_id = some p
          ∧ (p = m.white_player_id ∨ p = m.black_player_id)) := by
  refine ⟨rfl, sorted_getLast_eq_foldr_max h, ?_, rfl, ?_⟩
  · intro hnil
    subst hnil
    rfl
  · cases player_id with
    | none => simp [projectMatchState]
    | some p =>
      simp only [projectMatchState, color_for_player]
      constructor
      · intro hne
        refine ⟨p, rfl, ?_⟩
        by_contra hcon
        push_neg at hcon
        simp [hcon.1, hcon.2] at hne
      · rintro ⟨q, hq, hwb⟩
        cases hq
        rcases hwb with hw | hb
        · simp [hw]
        · by_cases hw : p = m.white_player_id
          · simp [hw, hb]
          · simp only [hw, hb, color_for_player, if_false, if_pos rfl]
            split <;> simp

/-- Witness for C8 at a concrete two-move ledger. -/
theorem C8_projected_state_witness :
    (projectMatchState raceMatch [racedRow] (some 2)).latest_ply
        = ((([racedRow] : List MoveRow).getLast?).map MoveRow.ply).getD 0
    ∧ (projectMatchState raceMatch [racedRow] (some 2)).latest_ply
        = ([racedRow] : List MoveRow).foldr (fun r acc => max r.ply acc) 0
    ∧ (([racedRow] : List MoveRow) = [] →
        (projectMatchState raceMatch [racedRow] (some 2)).latest_ply = 0)
    ∧ (projectMatchState raceMatch [racedRow] (some 2)).next_turn
        = (if (projectMatchState raceMatch [racedRow] (some 2)).latest_ply % 2 = 0
           then "white" else "black")
    ∧ ((projectMatchState raceMatch [racedRow] (some 2)).your_color ≠ none ↔
        ∃ p, (some 2 : Option Nat) = some p
          ∧ (p = raceMatch.white_player_id ∨ p = raceMatch.black_player_id)) :=
  C8_projected_state raceMatch [racedRow] (some 2) (by decide)

theorem uciMatch_length {s : String} (h : uciMatch s = true) :
    s.length = 4 ∨ s.length = 5 := by
  unfold uciMatch at h
  unfold String.length
  cases s with
  | mk data =>
    match data with
    | [a, b, c, d] => left; rfl
    | [a, b, c, d, e] => right; rfl
    | [] => simp at h
    | [a] => simp at h
    | [a, b] => simp at h
    | [a, b, c] => simp at h
    | a :: b :: c :: d :: e :: f :: rest => simp at h

theorem record_queue_ok_move_uci {db : DB} {committed : List MoveRow}
    {match_id player_id ply : Nat} {mv : String} {now : Nat} {row : MoveRow}
    {db2 : DB}
    (h : record_queue_match_move db committed match_id player_id ply mv now
      = (Except.ok row, db2)) : row.move_uci = mv := by
  unfold record_queue_match_move at h
  split at h
  · exact absurd (congrArg Prod.fst h) (by simp)
  · split at h
    · exact absurd (congrArg Prod.fst h) (by simp)
    · split at h
      · exact absurd (congrArg Prod.fst h) (by simp)
      · split at h
        · exact absurd (congrArg Prod.fst h) (by simp)
        · split at h
          · exact absurd (congrArg Prod.fst h) (by simp)
          · split at h
            · exact absurd (congrArg Prod.fst h) (by simp)
            · have h4 := congrArg Prod.fst h
              simp only [Except.ok.injEq] at h4
              rw [← h4]

/-- Claim C10: the stored move text of an accepted submission is the
whitespace-stripped, lowercased form of the submitted string, that
normalized form matches the four-or-five character origin, destination,
optional promotion grammar, and any input whose normalized form fails the
grammar is rejected before reaching the ledger (both on the bare game-move
route and on the match-move route). -/
theorem C10_move_validation (raw : String) :
    (∀ mv, validate_uci_move raw = some mv →
        mv = pyLower (pyStrip raw) ∧ uciMatch mv = true
          ∧ (mv.length = 4 ∨ mv.length = 5))
    ∧ (validate_uci_move raw = none ↔ uciMatch (pyLower (pyStrip raw)) = false)
    ∧ (∀ db game_id ply now mv, validate_uci_move raw = some mv →
        (record_game_move_endpoint db game_id ply raw now).map
            (fun pr => pr.1.move_uci) = Except.ok mv)
    ∧ (uciMatch (pyLower (pyStrip raw)) = false →
        ∀ db game_id ply now,
          record_game_move_endpoint db game_id ply raw now
            = Except.error (ApiErr.invalidRequest
                "Move must be valid UCI notation such as e2e4, e1g1, or e7e8q."))
    ∧ (∀ db committed match_id player_id ply now row db2,
        post_match_move_endpoint db committed match_id player_id ply raw now
            = (Except.ok row, db2) →
        row.move_uci = pyLower (pyStrip raw)
          ∧ uciMatch row.move_uci = true) := by
  have hsome : ∀ mv, validate_uci_move raw = some mv →
      mv = pyLower (pyStrip raw) ∧ uciMatch mv = true := by
    intro mv hmv
    unfold validate_uci_move at hmv
    split at hmv
    · cases hmv
      exact ⟨rfl, by assumption⟩
    · cases hmv
  refine ⟨?_, ?_, ?_, ?_, ?_⟩
  · intro mv hmv
    obtain ⟨he, hu⟩ := hsome mv hmv
    exact ⟨he, hu, uciMatch_length hu⟩
  · unfold validate_uci_move
    split
    · simp_all
    · simp_all
  · intro db game_id ply now mv hmv
    have hrun : record_game_move_endpoint db game_id ply raw now
        = Except.ok (save_game_move db game_id ply mv now) := by
      unfold record_game_move_endpoint
      rw [hmv]
    rw [hrun]
    have hmu : (save_game_move db game_id ply mv now).1.move_uci = mv := by
      unfold save_game_move
      split <;> rfl
    simp [Except.map, hmu]
  · intro hfail db game_id ply now
    unfold record_game_move_endpoint
    have hnone : validate_uci_move raw = none := by
      unfold validate_uci_move
      simp [hfail]
    rw [hnone]
  · intro db committed match_id player_id ply now row db2 hrun
    unfold post_match_move_endpoint at hrun
    cases hv : validate_uci_move raw with
    | none => rw [hv] at hrun; simp at hrun
    | some mv =>
      rw [hv] at hrun
      have hmvq := record_queue_ok_move_uci hrun
      obtain ⟨he, hu⟩ := hsome mv hv
      exact ⟨hmvq.trans he, by rw [hmvq]; exact hu⟩

/-- Witness for C10 at the raw input with surrounding whitespace and upper
case used by the repository's own tests. -/
theorem C10_move_validation_witness :
    validate_uci_move "  E2E4 " = some "e2e4"
    ∧ ("e2e4" = pyLower (pyStrip "  E2E4 ") ∧ uciMatch "e2e4" = true
        ∧ (("e2e4" : String).length = 4 ∨ ("e2e4" : String).length = 5)) :=
  ⟨by decide, (C10_move_validation "  E2E4 ").1 "e2e4" (by decide)⟩

/-- Claim C5 fails on the code: save_game_move performs an upsert, so
re-submitting (game 1, ply 1) with d2d4 overwrites the stored e2e4. -/
theorem C5_counterexample :
    (∃ r ∈ dbOverwrite.game_moves,
        r.game_id = 1 ∧ r.ply = 1 ∧ r.move_uci = "e2e4")
    ∧ (∃ r ∈ (save_game_move dbOverwrite 1 1 "d2d4" 10).2.game_moves,
        r.game_id = 1 ∧ r.ply = 1 ∧ r.move_uci = "d2d4")
    ∧ ¬ (∃ r ∈ (save_game_move dbOverwrite 1 1 "d2d4" 10).2.game_moves,
        r.game_id = 1 ∧ r.ply = 1 ∧ r.move_uci = "e2e4") := by
  decide

/-- Claim C5 amended: moves recorded through the match-move operation are
immutable, since record_queue_match_move never modifies or removes an
existing ledger row (a duplicate ply is rejected as Conflict); but the bare
game-move path save_game_move overwrites move_text when the same
(game_id, ply) is re-submitted. -/
theorem C5_amended (db : DB) (committed : List MoveRow)
    (match_id player_id ply : Nat) (mv : String) (now : Nat) (r : MoveRow)
    (hr : r ∈ db.game_moves) :
    r ∈ (record_queue_match_move db committed
          match_id player_id ply mv now).2.game_moves := by
  unfold record_queue_match_move
  split
  · exact hr
  · split
    · exact hr
    · split
      · exact hr
      · split
        · exact hr
        · split
          · exact hr
          · split
            · exact List.mem_append_left _ hr
            · exact List.mem_append_left _ (List.mem_append_left _ hr)

/-- Witness for C5 amended: the pre-existing e2e4 row survives a
match-move call on the same ledger. -/
theorem C5_amended_witness :
    ({ game_id := 1, ply := 1, move_uci := "e2e4", player_id := none,
       created_at := 0 } : MoveRow)
      ∈ (record_queue_match_move dbOverwrite [] 9 1 1 "d2d4" 7).2.game_moves :=
  C5_amended dbOverwrite [] 9 1 1 "d2d4" 7
    { game_id := 1, ply := 1, move_uci := "e2e4", player_id := none,
      created_at := 0 } (by decide)

/-- Claim C9 fails on the code: cancel_matchmaking_ticket refuses only
matched tickets, so explicit cancellation moves the expired ticket 7 to
cancelled. -/
theorem C9_counterexample :
    (∃ t ∈ dbExpiredTicket.tickets, t.id = 7 ∧ t.status = TicketStatus.expired)
    ∧ ∃ pr, cancel_matchmaking_ticket dbExpiredTicket 7 1 50 = Except.ok pr
        ∧ pr.1.status = TicketStatus.cancelled
        ∧ ∃ t ∈ pr.2.tickets, t.id = 7 ∧ t.status = TicketStatus.cancelled := by
  exact ⟨by decide, ⟨_, rfl, by decide, by decide⟩⟩

/-- Claim C4 fails on the code: cancel_matchmaking_ticket performs no expiry
sweep, so after cancelling ticket 1 at now = 100 the stale queued ticket 2,
whose expires_at = 5 lies in the past, is still queued instead of expired. -/
theorem C4_counterexample :
    ∃ pr, cancel_matchmaking_ticket dbCancelSweep 1 1 100 = Except.ok pr
      ∧ ∃ t ∈ pr.2.tickets, t.id = 2 ∧ t.status = TicketStatus.queued
          ∧ t.expires_at < 100 := by
  exact ⟨_, rfl, by decide⟩

theorem provCancel_refl (l : List TicketRow) : ProvCancel l l :=
  fun t2 h hc => ⟨t2, h, rfl, hc⟩

theorem provCancel_trans {a b c : List TicketRow}
    (h1 : ProvCancel a b) (h2 : ProvCancel b c) : ProvCancel a c := by
  intro t2 ht2 hc
  obtain ⟨t1, ht1, hid, hc1⟩ := h2 t2 ht2 hc
  obtain ⟨t0, ht0, hid0, hc0⟩ := h1 t1 ht1 hc1
  exact ⟨t0, ht0, hid0.trans hid, hc0⟩

theorem provCancel_map {l : List TicketRow} {f : TicketRow → TicketRow}
    (hid : ∀ x ∈ l, (f x).id = x.id)
    (hst : ∀ x ∈ l, (f x).status = TicketStatus.cancelled →
      x.status = TicketStatus.cancelled) :
    ProvCancel l (l.map f) := by
  intro t2 ht2 hc
  obtain ⟨x, hx, hfx⟩ := List.mem_map.mp ht2
  refine ⟨x, hx, ?_, hst x hx (by rw [hfx]; exact hc)⟩
  rw [← hfx]
  exact (hid x hx).symm

theorem provCancel_append_new {l : List TicketRow} {new : TicketRow}
    (hnew : new.status ≠ TicketStatus.cancelled) :
    ProvCancel l (l ++ [new]) := by
  intro t2 ht2 hc
  rcases List.mem_append.mp ht2 with h | h
  · exact ⟨t2, h, rfl, hc⟩
  · simp only [List.mem_singleton] at h
    subst h
    exact absurd hc hnew

theorem provCancel_sweep (now : Nat) (db : DB) :
    ProvCancel db.tickets (expire_stale_tickets now db).tickets := by
  unfold expire_stale_tickets
  refine provCancel_map ?_ ?_
  · intro x hx
    unfold sweepOne
    split <;> rfl
  · intro x hx
    unfold sweepOne
    split
    · intro hcon
      exact TicketStatus.noConfusion hcon
    · exact id

theorem provCancel_ensure {db : DB} {p now nid : Nat} {t : TicketRow} {db2 : DB}
    (h : ensure_player_ticket db p now nid = Except.ok (t, db2)) :
    ProvCancel db.tickets db2.tickets := by
  unfold ensure_player_ticket at h
  split at h
  · split at h
    · simp only [Except.ok.injEq, Prod.mk.injEq] at h
      rw [← h.2]
      refine provCancel_map ?_ ?_
      · intro x hx
        dsimp only
        split <;> simp [refreshTicket]
      · intro x hx
        dsimp only
        split
        · simp [refreshTicket]
        · exact id
    · simp only [Except.ok.injEq, Prod.mk.injEq] at h
      rw [← h.2]
      exact provCancel_refl _
  · split at h
    · split at h
      · simp only [Except.ok.injEq, Prod.mk.injEq] at h
        rw [← h.2]
        exact provCancel_refl _
      · exact absurd h (by simp)
    · simp only [Except.ok.injEq, Prod.mk.injEq] at h
      rw [← h.2]
      exact provCancel_append_new (by simp [newTicket])

theorem provCancel_try_pair {db : DB} {t : TicketRow} {now nm ng : Nat}
    {t2 : TicketRow} {db2 : DB}
    (h : try_pair_ticket db t now nm ng = Except.ok (t2, db2)) :
    ProvCancel db.tickets db2.tickets := by
  unfold try_pair_ticket at h
  split at h
  · simp only [Except.ok.injEq, Prod.mk.injEq] at h
    rw [← h.2]
    exact provCancel_refl _
  · split at h
    · simp only [Except.ok.injEq, Prod.mk.injEq] at h
      rw [← h.2]
      exact provCancel_refl _
    · split at h
      · simp only [Except.ok.injEq, Prod.mk.injEq] at h
        rw [← h.2]
        exact provCancel_refl _
      · split at h
        · exact absurd h (by simp)
        · simp only [Except.ok.injEq, Prod.mk.injEq] at h
          rw [← h.2]
          unfold pairedDB
          refine provCancel_map ?_ ?_
          · intro x hx
            dsimp only
            split <;> simp [matchedTicket]
          · intro x hx
            dsimp only
            split
            · intro hcon
              simp [matchedTicket] at hcon
            · exact id

theorem provCancel_enqueue {db : DB} {p now i1 i2 i3 : Nat}
    {r : TicketResponse} {db3 : DB}
    (h : enqueue_player_for_matchmaking db p now i1 i2 i3 = Except.ok (r, db3)) :
    ProvCancel db.tickets db3.tickets := by
  unfold enqueue_player_for_matchmaking at h
  split at h
  · exact absurd h (by simp)
  · rename_i t db2 heq
    split at h
    · exact absurd h (by simp)
    · rename_i t3 db3a heq2
      simp only [Except.ok.injEq, Prod.mk.injEq] at h
      rw [← h.2]
      exact provCancel_trans (provCancel_trans (provCancel_sweep now db)
        (provCancel_ensure heq)) (provCancel_try_pair heq2)

theorem provCancel_heartbeat {db : DB} {tid p now i2 i3 : Nat}
    {r : TicketResponse} {db3 : DB}
    (h : heartbeat_matchmaking_ticket db tid p now i2 i3 = Except.ok (r, db3)) :
    ProvCancel db.tickets db3.tickets := by
  unfold heartbeat_matchmaking_ticket at h
  split at h
  · exact absurd h (by simp)
  · rename_i t heq
    split at h
    · simp only [Except.ok.injEq, Prod.mk.injEq] at h
      rw [← h.2]
      exact provCancel_sweep now db
    · split at h
      · exact absurd h (by simp)
      · rename_i t3 db3a heq2
        simp only [Except.ok.injEq, Prod.mk.injEq] at h
        rw [← h.2]
        refine provCancel_trans (provCancel_trans (provCancel_sweep now db)
          ?_) (provCancel_try_pair heq2)
        refine provCancel_map ?_ ?_
        · intro x hx
          dsimp only
          split <;> simp [refreshTicket]
        · intro x hx
          dsimp only
          split
          · simp [refreshTicket]
          · exact id

theorem provCancel_get {db : DB} {tid : Nat} {p : Option Nat} {now : Nat}
    {r : TicketResponse} {db3 : DB}
    (h : get_matchmaking_ticket db tid p now = Except.ok (r, db3)) :
    ProvCancel db.tickets db3.tickets := by
  unfold get_matchmaking_ticket at h
  split at h
  · exact absurd h (by simp)
  · simp only [Except.ok.injEq, Prod.mk.injEq] at h
    rw [← h.2]
    exact provCancel_sweep now db

theorem noStale_map {now : Nat} {l : List TicketRow} {f : TicketRow → TicketRow}
    (hf : ∀ x ∈ l, (x.status = TicketStatus.queued → now ≤ x.expires_at) →
        (f x).status = TicketStatus.queued → now ≤ (f x).expires_at)
    (hl : NoStaleQueued now l) : NoStaleQueued now (l.map f) := by
  intro t2 ht2 hq
  obtain ⟨x, hx, hfx⟩ := List.mem_map.mp ht2
  rw [← hfx] at hq ⊢
  exact hf x hx (hl x hx) hq

theorem noStale_sweep (now : Nat) (db : DB) :
    NoStaleQueued now (expire_stale_tickets now db).tickets := by
  intro t2 ht2 hq
  simp only [expire_stale_tickets] at ht2
  obtain ⟨x, hx, hfx⟩ := List.mem_map.mp ht2
  unfold sweepOne at hfx
  by_cases hc : x.status = TicketStatus.queued ∧ x.expires_at < now
  · rw [if_pos hc] at hfx
    rw [← hfx] at hq
    simp at hq
  · rw [if_neg hc] at hfx
    rw [← hfx] at hq ⊢
    have hnl : ¬ x.expires_at < now := fun hlt => hc ⟨hq, hlt⟩
    omega

theorem noStale_ensure {db : DB} {p now nid : Nat} {t : TicketRow} {db2 : DB}
    (h : ensure_player_ticket db p now nid = Except.ok (t, db2))
    (hdb : NoStaleQueued now db.tickets) : NoStaleQueued now db2.tickets := by
  unfold ensure_player_ticket at h
  split at h
  · split at h
    · simp only [Except.ok.injEq, Prod.mk.injEq] at h
      rw [← h.2]
      refine noStale_map ?_ hdb
      intro x hx hx2
      dsimp only
      split
      · intro _
        simp [refreshTicket, ticket_expiry_from_now]
      · exact hx2
    · simp only [Except.ok.injEq, Prod.mk.injEq] at h
      rw [← h.2]
      exact hdb
  · split at h
    · split at h
      · simp only [Except.ok.injEq, Prod.mk.injEq] at h
        rw [← h.2]
        exact hdb
      · exact absurd h (by simp)
    · simp only [Except.ok.injEq, Prod.mk.injEq] at h
      rw [← h.2]
      intro t2 ht2 hq
      rcases List.mem_append.mp ht2 with hin | hnew
      · exact hdb t2 hin hq
      · simp only [List.mem_singleton] at hnew
        subst hnew
        simp [newTicket, ticket_expiry_from_now]

theorem noStale_try_pair {db : DB} {t : TicketRow} {now nm ng : Nat}
    {t2 : TicketRow} {db2 : DB}
    (h : try_pair_ticket db t now nm ng = Except.ok (t2, db2))
    (hdb : NoStaleQueued now db.tickets) : NoStaleQueued now db2.tickets := by
  unfold try_pair_ticket at h
  split at h
  · simp only [Except.ok.injEq, Prod.mk.injEq] at h
    rw [← h.2]
    exact hdb
  · split at h
    · simp only [Except.ok.injEq, Prod.mk.injEq] at h
      rw [← h.2]
      exact hdb
    · split at h
      · simp only [Except.ok.injEq, Prod.mk.injEq] at h
        rw [← h.2]
        exact hdb
      · split at h
        · exact absurd h (by simp)
        · simp only [Except.ok.injEq, Prod.mk.injEq] at h
          rw [← h.2]
          unfold pairedDB
          refine noStale_map ?_ hdb
          intro x hx hx2
          dsimp only
          split
          · intro hq
            simp [matchedTicket] at hq
          · exact hx2

/-- Claim C4 amended: enqueue, heartbeat and get-ticket each run the lazy
expiry sweep first, so their post-state contains no queued ticket whose
expires_at lies in the past at the call's transaction time; cancel, however,
performs no sweep, as the counterexample shows. -/
theorem C4_amended :
    (∀ db p now i1 i2 i3 r db2,
        enqueue_player_for_matchmaking db p now i1 i2 i3 = Except.ok (r, db2) →
        NoStaleQueued now db2.tickets)
    ∧ (∀ db tid p now i2 i3 r db2,
        heartbeat_matchmaking_ticket db tid p now i2 i3 = Except.ok (r, db2) →
        NoStaleQueued now db2.tickets)
    ∧ (∀ db tid p now r db2,
        get_matchmaking_ticket db tid p now = Except.ok (r, db2) →
        NoStaleQueued now db2.tickets) := by
  refine ⟨?_, ?_, ?_⟩
  · intro db p now i1 i2 i3 r db2 h
    unfold enqueue_player_for_matchmaking at h
    split at h
    · exact absurd h (by simp)
    · rename_i t db2a heq
      split at h
      · exact absurd h (by simp)
      · rename_i t3 db3a heq2
        simp only [Except.ok.injEq, Prod.mk.injEq] at h
        rw [← h.2]
        exact noStale_try_pair heq2 (noStale_ensure heq (noStale_sweep now db))
  · intro db tid p now i2 i3 r db2 h
    unfold heartbeat_matchmaking_ticket at h
    split at h
    · exact absurd h (by simp)
    · rename_i t heq
      split at h
      · simp only [Except.ok.injEq, Prod.mk.injEq] at h
        rw [← h.2]
        exact noStale_sweep now db
      · split at h
        · exact absurd h (by simp)
        · rename_i t3 db3a heq2
          simp only [Except.ok.injEq, Prod.mk.injEq] at h
          rw [← h.2]
          refine noStale_try_pair heq2 ?_
          refine noStale_map ?_ (noStale_sweep now db)
          intro x hx hx2
          dsimp only
          split
          · intro _
            simp [refreshTicket, ticket_expiry_from_now]
          · exact hx2
  · intro db tid p now r db2 h
    unfold get_matchmaking_ticket at h
    split at h
    · exact absurd h (by simp)
    · simp only [Except.ok.injEq, Prod.mk.injEq] at h
      rw [← h.2]
      exact noStale_sweep now db

/-- Witness for C4 amended: a first enqueue on the empty database leaves a
post-state with no stale queued tickets. -/
theorem C4_amended_witness :
    NoStaleQueued 0
      ({ games := [], game_moves := [], matchRows := [],
         tickets := [{ id := 11, player_id := 1, status := TicketStatus.queued,
                       heartbeat_at := 0, expires_at := 30, match_id := none,
                       created_at := 0, updated_at := 0 }] } : DB).tickets :=
  C4_amended.1 dbEmpty 1 0 11 91 81
    { ticket_id := 11, player_id := 1, status := TicketStatus.queued,
      match_id := none, assigned_color := none, heartbeat_at := 0,
      expires_at := 30 }
    { games := [], game_moves := [], matchRows := [],
      tickets := [{ id := 11, player_id := 1, status := TicketStatus.queued,
                    heartbeat_at := 0, expires_at := 30, match_id := none,
                    created_at := 0, updated_at := 0 }] }
    rfl

/-- Claim C9 amended: a ticket reaches cancelled only through explicit
player cancellation, but cancellation succeeds on any owned ticket whose
status is not matched — including expired and already-cancelled tickets —
and is refused with Conflict exactly when the ticket is matched; enqueue,
heartbeat and get-ticket never move a ticket to cancelled. -/
theorem C9_amended :
    (∀ db tid p now t, fetch_ticket_row db tid (some p) = some t →
        t.status = TicketStatus.matched →
        cancel_matchmaking_ticket db tid p now
          = Except.error
              (ApiErr.conflictMsg "Matched tickets cannot be cancelled."))
    ∧ (∀ db tid p now t, fetch_ticket_row db tid (some p) = some t →
        t.status ≠ TicketStatus.matched →
        ∃ resp db2, cancel_matchmaking_ticket db tid p now
            = Except.ok (resp, db2)
          ∧ resp.status = TicketStatus.cancelled)
    ∧ (∀ db p now i1 i2 i3 r db2,
        enqueue_player_for_matchmaking db p now i1 i2 i3 = Except.ok (r, db2) →
        ProvCancel db.tickets db2.tickets)
    ∧ (∀ db tid p now i2 i3 r db2,
        heartbeat_matchmaking_ticket db tid p now i2 i3 = Except.ok (r, db2) →
        ProvCancel db.tickets db2.tickets)
    ∧ (∀ db tid pOpt now r db2,
        get_matchmaking_ticket db tid pOpt now = Except.ok (r, db2) →
        ProvCancel db.tickets db2.tickets) := by
  refine ⟨?_, ?_,
    fun _ _ _ _ _ _ _ _ h => provCancel_enqueue h,
    fun _ _ _ _ _ _ _ _ h => provCancel_heartbeat h,
    fun _ _ _ _ _ _ h => provCancel_get h⟩
  · intro db tid p now t hf hm
    unfold cancel_matchmaking_ticket
    simp only [hf]
    rw [if_pos hm]
  · intro db tid p now t hf hm
    have hrun : cancel_matchmaking_ticket db tid p now = Except.ok
        (ticket_response_for_row
          { db with tickets := db.tickets.map (fun x =>
              if x.id = tid then
                { x with status := TicketStatus.cancelled, updated_at := now }
              else x) }
          { t with status := TicketStatus.cancelled, updated_at := now },
         { db with tickets := db.tickets.map (fun x =>
             if x.id = tid then
               { x with status := TicketStatus.cancelled, updated_at := now }
             else x) }) := by
      unfold cancel_matchmaking_ticket
      simp only [hf]
      rw [if_neg hm]
    exact ⟨_, _, hrun, rfl⟩

/-- Witness for C9 amended: cancelling the expired ticket succeeds and the
answered ticket is cancelled. -/
theorem C9_amended_witness :
    ∃ resp db2, cancel_matchmaking_ticket dbExpiredTicket 7 1 50
        = Except.ok (resp, db2) ∧ resp.status = TicketStatus.cancelled :=
  C9_amended.2.1 dbExpiredTicket 7 1 50
    { id := 7, player_id := 1, status := TicketStatus.expired, heartbeat_at := 0,
      expires_at := 10, match_id := none, created_at := 0, updated_at := 0 }
    (by decide) (by decide)

theorem pairCandidate_mem {db : DB} {t : TicketRow} {now : Nat} {c : TicketRow}
    (h : pairCandidate db t now = some c) :
    c ∈ db.tickets ∧ c.status = TicketStatus.queued ∧ c.match_id = none
      ∧ now ≤ c.expires_at ∧ c.player_id ≠ t.player_id := by
  unfold pairCandidate at h
  have hm := head?_some_mem h
  rw [mem_ordSort] at hm
  have hf := List.mem_filter.mp hm
  refine ⟨hf.1, ?_⟩
  have hp := hf.2
  simp only [decide_eq_true_eq] at hp
  exact hp

/-- Claim C7: every match created by the pairing engine has distinct white
and black players — a player is never paired with themself. -/
theorem C7_no_self_pairing (db : DB) (t : TicketRow) (now nm ng : Nat)
    (t2 : TicketRow) (db2 : DB)
    (h : try_pair_ticket db t now nm ng = Except.ok (t2, db2))
    (m : MatchRow) (hm : m ∈ db2.matchRows) (hnew : m ∉ db.matchRows) :
    m.white_player_id ≠ m.black_player_id := by
  unfold try_pair_ticket at h
  split at h
  · simp only [Except.ok.injEq, Prod.mk.injEq] at h
    rw [← h.2] at hm
    exact absurd hm hnew
  · split at h
    · simp only [Except.ok.injEq, Prod.mk.injEq] at h
      rw [← h.2] at hm
      exact absurd hm hnew
    · rename_i other heq
      split at h
      · simp only [Except.ok.injEq, Prod.mk.injEq] at h
        rw [← h.2] at hm
        exact absurd hm hnew
      · rename_i hneq
        split at h
        · exact absurd h (by simp)
        · simp only [Except.ok.injEq, Prod.mk.injEq] at h
          rw [← h.2] at hm
          unfold pairedDB at hm
          rcases List.mem_append.mp hm with hold | hnew2
          · exact absurd hold hnew
          · simp only [List.mem_singleton] at hnew2
            subst hnew2
            have hot : other.player_id ≠ t.player_id := (pairCandidate_mem heq).2.2.2.2
            by_cases hcr : other.created_at ≤ t.created_at
            · simp only [matchFromTickets, if_pos hcr, if_true]
              exact hot
            · simp only [matchFromTickets, if_neg hcr]
              rw [if_neg (fun he => hot he.symm)]
              exact fun he => hot he.symm

/-- Witness for C7 at the concrete tie pairing. -/
theorem C7_no_self_pairing_witness :
    tieMatch.white_player_id ≠ tieMatch.black_player_id :=
  C7_no_self_pairing dbTie tieTicketA 10 9 8 tieTicketA2 dbTiePaired rfl
    tieMatch (by decide) (by decide)

/-- Claim C3 fails on the code at equal creation timestamps: tickets A
(player 1) and B (player 2) are both created at time 5, so B qualifies as
created at t2 greater than or equal to t1, yet when A invokes the pairing
the created match assigns white to B's player instead of A's. -/
theorem C3_counterexample :
    tieTicketA.created_at = 5 ∧ tieTicketB.created_at = 5
    ∧ ∃ pr, try_pair_ticket dbTie tieTicketA 10 9 8 = Except.ok pr
        ∧ ∃ m, pr.2.matchRows = [m]
            ∧ m.white_player_id = tieTicketB.player_id
            ∧ m.white_player_id ≠ tieTicketA.player_id := by
  exact ⟨rfl, rfl, ⟨_, rfl, ⟨_, rfl, rfl, by decide⟩⟩⟩

/-- Claim C3 amended: when the two paired tickets carry distinct creation
timestamps, the earlier-created ticket's player is assigned white; on equal
timestamps white goes to the waiting candidate ticket's player (the ticket
not invoking the pairing), regardless of labels. -/
theorem C3_amended (db : DB) (t : TicketRow) (now nm ng : Nat)
    (other t2 : TicketRow) (db2 : DB) (m : MatchRow)
    (hcand : pairCandidate db t now = some other)
    (h : try_pair_ticket db t now nm ng = Except.ok (t2, db2))
    (hm : m ∈ db2.matchRows) (hnew : m ∉ db.matchRows) :
    (other.created_at < t.created_at → m.white_player_id = other.player_id)
    ∧ (t.created_at < other.created_at → m.white_player_id = t.player_id)
    ∧ (other.created_at = t.created_at → m.white_player_id = other.player_id) := by
  unfold try_pair_ticket at h
  split at h
  · simp only [Except.ok.injEq, Prod.mk.injEq] at h
    rw [← h.2] at hm
    exact absurd hm hnew
  · split at h
    · simp only [Except.ok.injEq, Prod.mk.injEq] at h
      rw [← h.2] at hm
      exact absurd hm hnew
    · rename_i other2 heq
      rw [hcand] at heq
      injection heq with heq2
      subst heq2
      split at h
      · simp only [Except.ok.injEq, Prod.mk.injEq] at h
        rw [← h.2] at hm
        exact absurd hm hnew
      · split at h
        · exact absurd h (by simp)
        · simp only [Except.ok.injEq, Prod.mk.injEq] at h
          rw [← h.2] at hm
          unfold pairedDB at hm
          rcases List.mem_append.mp hm with hold | hnew2
          · exact absurd hold hnew
          · simp only [List.mem_singleton] at hnew2
            subst hnew2
            refine ⟨?_, ?_, ?_⟩
            · intro hlt
              simp only [matchFromTickets, if_pos (Nat.le_of_lt hlt)]
            · intro hlt
              simp only [matchFromTickets, if_neg (Nat.not_le_of_lt hlt)]
            · intro heqc
              simp only [matchFromTickets, if_pos (Nat.le_of_eq heqc)]

/-- Witness for C3 amended at the concrete tie pairing: both timestamps are
5 and the candidate's player 2 takes white. -/
theorem C3_amended_witness :
    (tieTicketB.created_at < tieTicketA.created_at →
      tieMatch.white_player_id = tieTicketB.player_id)
    ∧ (tieTicketA.created_at < tieTicketB.created_at →
      tieMatch.white_player_id = tieTicketA.player_id)
    ∧ (tieTicketB.created_at = tieTicketA.created_at →
      tieMatch.white_player_id = tieTicketB.player_id) :=
  C3_amended dbTie tieTicketA 10 9 8 tieTicketB tieTicketA2 dbTiePaired tieMatch
    (by decide) rfl (by decide) (by decide)

/-- Claim C2: a move submitted on an active match by a participant whose
assigned color differs from the expected turn, or whose supplied ply differs
from expected_ply = latest_ply + 1, answers Conflict carrying the full
current projected state, and the move ledger is unchanged by the call. -/
theorem C2_turn_and_ply_conflict (db : DB) (match_id player_id ply : Nat)
    (mv : String) (now : Nat) (m : MatchRow) (c : String)
    (hm : fetch_match_row db match_id = some m)
    (hactive : m.status = "active")
    (hc : color_for_player m player_id = some c)
    (hbad : c ≠ next_turn_for_ply (maxPly db.game_moves m.game_id)
      ∨ ply ≠ maxPly db.game_moves m.game_id + 1) :
    ∃ msg st,
      record_queue_match_move db [] match_id player_id ply mv now
        = (Except.error (ApiErr.conflictState msg st), db)
      ∧ currentMatchState? db match_id (some player_id) = some st
      ∧ (record_queue_match_move db [] match_id player_id ply mv now).2.game_moves
          = db.game_moves := by
  have hst : currentMatchState? db match_id (some player_id)
      = some (projectMatchState m (fetch_match_moves_for_match db m.game_id 0)
          (some player_id)) := by
    unfold currentMatchState?
    rw [hm]
    rfl
  have hns : ¬ m.status ≠ "active" := fun hne => hne hactive
  rcases hbad with hturn | hply
  · have hrun : record_queue_match_move db [] match_id player_id ply mv now
        = (Except.error (ApiErr.conflictState
            ("It is " ++ next_turn_for_ply (maxPly db.game_moves m.game_id)
              ++ "\x27s turn.")
            (projectMatchState m (fetch_match_moves_for_match db m.game_id 0)
              (some player_id))), db) := by
      unfold record_queue_match_move
      simp only [hm]
      rw [if_neg hns]
      simp only [hc]
      rw [if_pos hturn]
      unfold build_conflict_detail
      rw [hst]
    exact ⟨_, _, hrun, hst, by rw [hrun]⟩
  · by_cases hturn : c ≠ next_turn_for_ply (maxPly db.game_moves m.game_id)
    · have hrun : record_queue_match_move db [] match_id player_id ply mv now
          = (Except.error (ApiErr.conflictState
              ("It is " ++ next_turn_for_ply (maxPly db.game_moves m.game_id)
                ++ "\x27s turn.")
              (projectMatchState m (fetch_match_moves_for_match db m.game_id 0)
                (some player_id))), db) := by
        unfold record_queue_match_move
        simp only [hm]
        rw [if_neg hns]
        simp only [hc]
        rw [if_pos hturn]
        unfold build_conflict_detail
        rw [hst]
      exact ⟨_, _, hrun, hst, by rw [hrun]⟩
    · have hrun : record_queue_match_move db [] match_id player_id ply mv now
          = (Except.error (ApiErr.conflictState
              ("Expected ply " ++ toString (maxPly db.game_moves m.game_id + 1)
                ++ ", received " ++ toString ply ++ ".")
              (projectMatchState m (fetch_match_moves_for_match db m.game_id 0)
                (some player_id))), db) := by
        unfold record_queue_match_move
        simp only [hm]
        rw [if_neg hns]
        simp only [hc]
        rw [if_neg hturn]
        rw [if_pos hply]
        unfold build_conflict_detail
        rw [hst]
      exact ⟨_, _, hrun, hst, by rw [hrun]⟩

/-- Witness for C2: white submits ply 2 on an empty ledger and answers
Conflict with the projected state, ledger untouched. -/
theorem C2_turn_and_ply_conflict_witness :
    ∃ msg st,
      record_queue_match_move dbRaceCase [] 5 1 2 "d2d4" 2
        = (Except.error (ApiErr.conflictState msg st), dbRaceCase)
      ∧ currentMatchState? dbRaceCase 5 (some 1) = some st
      ∧ (record_queue_match_move dbRaceCase [] 5 1 2 "d2d4" 2).2.game_moves
          = dbRaceCase.game_moves :=
  C2_turn_and_ply_conflict dbRaceCase 5 1 2 "d2d4" 2 raceMatch "white"
    rfl rfl rfl (Or.inr (by decide))

/-- Claim C1: when the pre-checks pass on the transaction's own reads but a
row with the same (game_id, ply) was committed concurrently before the
INSERT, the uniqueness violation is caught and converted into the same
Conflict shape carrying the projected state (read over the raced ledger),
and the raw storage uniqueness error never surfaces. -/
theorem C1_unique_violation_conflict (db : DB) (committed : List MoveRow)
    (match_id player_id ply : Nat) (mv : String) (now : Nat) (m : MatchRow)
    (hm : fetch_match_row db match_id = some m)
    (hactive : m.status = "active")
    (hc : color_for_player m player_id
      = some (next_turn_for_ply (maxPly db.game_moves m.game_id)))
    (hply : ply = maxPly db.game_moves m.game_id + 1)
    (hdup : ∃ r ∈ db.game_moves ++ committed,
      r.game_id = m.game_id ∧ r.ply = ply) :
    ∃ st,
      record_queue_match_move db committed match_id player_id ply mv now
        = (Except.error (ApiErr.conflictState
            "This ply is already recorded on the server." st),
           { db with game_moves := db.game_moves ++ committed })
      ∧ currentMatchState? { db with game_moves := db.game_moves ++ committed }
          match_id (some player_id) = some st := by
  have hm2 : fetch_match_row { db with game_moves := db.game_moves ++ committed }
      match_id = some m := hm
  have hst : currentMatchState? { db with game_moves := db.game_moves ++ committed }
      match_id (some player_id)
      = some (projectMatchState m
          (fetch_match_moves_for_match
            { db with game_moves := db.game_moves ++ committed } m.game_id 0)
          (some player_id)) := by
    unfold currentMatchState?
    rw [hm2]
    rfl
  have hns : ¬ m.status ≠ "active" := fun hne => hne hactive
  have hany : ((db.game_moves ++ committed).any
      (fun r => decide (r.game_id = m.game_id ∧ r.ply = ply))) = true := by
    rw [List.any_eq_true]
    obtain ⟨r, hr, h1, h2⟩ := hdup
    exact ⟨r, hr, by simp [h1, h2]⟩
  refine ⟨_, ?_, hst⟩
  unfold record_queue_match_move
  simp only [hm]
  rw [if_neg hns]
  simp only [hc]
  rw [if_neg (fun hne => hne rfl)]
  rw [if_neg (fun hne => hne hply)]
  rw [if_pos hany]
  unfold build_conflict_detail
  rw [hst]

/-- Witness for C1: the concurrent commit of ply 1 makes white's own insert
of ply 1 collide; the call answers the ply-already-recorded Conflict with
the projected state over the raced ledger. -/
theorem C1_unique_violation_conflict_witness :
    ∃ st,
      record_queue_match_move dbRaceCase [racedRow] 5 1 1 "d2d4" 2
        = (Except.error (ApiErr.conflictState
            "This ply is already recorded on the server." st),
           { dbRaceCase with
              game_moves := dbRaceCase.game_moves ++ [racedRow] })
      ∧ currentMatchState?
          { dbRaceCase with
             game_moves := dbRaceCase.game_moves ++ [racedRow] }
          5 (some 1) = some st :=
  C1_unique_violation_conflict dbRaceCase [racedRow] 5 1 1 "d2d4" 2 raceMatch
    rfl rfl rfl (by decide) (by decide)

theorem sweepOne_id (now : Nat) (t : TicketRow) : (sweepOne now t).id = t.id := by
  unfold sweepOne
  split <;> rfl

theorem sweepOne_player (now : Nat) (t : TicketRow) :
    (sweepOne now t).player_id = t.player_id := by
  unfold sweepOne
  split <;> rfl

theorem sweepOne_active {p : Nat} {now : Nat} {t : TicketRow}
    (h : activeFor p (sweepOne now t) = true) : activeFor p t = true := by
  unfold sweepOne at h
  split at h
  · simp [activeFor] at h
  · exact h

theorem sweepOne_eq_self {now : Nat} {t : TicketRow}
    (h : t.status = TicketStatus.matched ∨ now ≤ t.expires_at) :
    sweepOne now t = t := by
  unfold sweepOne
  rw [if_neg]
  rcases h with hm | hle
  · rintro ⟨hq, _⟩
    rw [hm] at hq
    exact TicketStatus.noConfusion hq
  · rintro ⟨_, hlt⟩
    omega

theorem activeFor_decomp {p : Nat} {t : TicketRow} (h : activeFor p t = true) :
    t.player_id = p
      ∧ (t.status = TicketStatus.queued ∨ t.status = TicketStatus.matched) := by
  simpa [activeFor] using h

theorem eq_of_mem_of_id_eq {l : List TicketRow}
    (hnodup : (l.map TicketRow.id).Nodup) {x y : TicketRow}
    (hx : x ∈ l) (hy : y ∈ l) (hid : x.id = y.id) : x = y :=
  List.inj_on_of_nodup_map hnodup hx hy hid

theorem map_id_nodup {l : List TicketRow} {f : TicketRow → TicketRow}
    (hid : ∀ x, (f x).id = x.id)
    (hn : (l.map TicketRow.id).Nodup) : ((l.map f).map TicketRow.id).Nodup := by
  rw [List.map_map, show (TicketRow.id ∘ f) = TicketRow.id from funext hid]
  exact hn

theorem find?_map_id {l : List TicketRow} {f : TicketRow → TicketRow}
    {t : TicketRow}
    (hid : ∀ x, (f x).id = x.id)
    (hmem : t ∈ l) (hnodup : (l.map TicketRow.id).Nodup) :
    (l.map f).find? (fun x => decide (x.id = t.id)) = some (f t) := by
  induction l with
  | nil => cases hmem
  | cons b bs ih =>
    rw [List.map_cons]
    rw [List.map_cons, List.nodup_cons] at hnodup
    rcases List.mem_cons.mp hmem with rfl | hmem2
    · exact List.find?_cons_of_pos _ (by simp [hid])
    · have hbne : b.id ≠ t.id := by
        intro he
        exact hnodup.1 (he ▸ (List.mem_map.mpr ⟨t, hmem2, rfl⟩))
      rw [List.find?_cons_of_neg _ (by simp [hid, hbne])]
      exact ih hmem2 hnodup.2

theorem activeTicketFor_mem {db : DB} {p : Nat} {a : TicketRow}
    (h : activeTicketFor db p = some a) :
    a ∈ db.tickets ∧ activeFor p a = true := by
  unfold activeTicketFor at h
  have hm := head?_some_mem h
  rw [mem_ordSort] at hm
  exact ⟨(List.mem_filter.mp hm).1, (List.mem_filter.mp hm).2⟩

theorem activeTicketFor_none {db : DB} {p : Nat}
    (h : activeTicketFor db p = none) :
    ∀ x ∈ db.tickets, activeFor p x = false := by
  unfold activeTicketFor at h
  rw [List.head?_eq_none_iff, ordSort_eq_nil_iff, List.filter_eq_nil_iff] at h
  intro x hx
  exact Bool.not_eq_true _ ▸ (h x hx)

theorem activeTicketFor_of_unique {db : DB} {p : Nat} {a : TicketRow}
    (hmem : a ∈ db.tickets) (hact : activeFor p a = true)
    (hall : ∀ x ∈ db.tickets, activeFor p x = true → x = a) :
    activeTicketFor db p = some a := by
  unfold activeTicketFor
  cases hsort : ordSort (fun x y => decide (y.created_at ≤ x.created_at))
      (db.tickets.filter (activeFor p)) with
  | nil =>
    exfalso
    have hf : a ∈ db.tickets.filter (activeFor p) :=
      List.mem_filter.mpr ⟨hmem, hact⟩
    rw [ordSort_eq_nil_iff.mp hsort] at hf
    cases hf
  | cons b bs =>
    have hb : b ∈ db.tickets.filter (activeFor p) := by
      have hmem2 : b ∈ ordSort (fun x y => decide (y.created_at ≤ x.created_at))
          (db.tickets.filter (activeFor p)) := by
        rw [hsort]
        exact List.mem_cons_self _ _
      exact mem_ordSort.mp hmem2
    have hbf := List.mem_filter.mp hb
    simp only [List.head?]
    rw [hall b hbf.1 hbf.2]

theorem matchedTicket_id (x : TicketRow) (now nm : Nat) :
    (matchedTicket x now nm).id = x.id := rfl

theorem try_pair_post {db : DB} {t : TicketRow} {now nm ng : Nat}
    {t2 : TicketRow} {db2 : DB}
    (h : try_pair_ticket db t now nm ng = Except.ok (t2, db2))
    (hmem : t ∈ db.tickets)
    (hnodup : (db.tickets.map TicketRow.id).Nodup) :
    (t2 = t ∧ db2 = db) ∨
    ∃ other, pairCandidate db t now = some other
      ∧ t.status = TicketStatus.queued
      ∧ other.player_id ≠ t.player_id
      ∧ t2 = matchedTicket t now nm
      ∧ db2 = pairedDB db t other now nm ng := by
  unfold try_pair_ticket at h
  split at h
  · simp only [Except.ok.injEq, Prod.mk.injEq] at h
    exact Or.inl ⟨h.1.symm, h.2.symm⟩
  · rename_i hq
    split at h
    · simp only [Except.ok.injEq, Prod.mk.injEq] at h
      exact Or.inl ⟨h.1.symm, h.2.symm⟩
    · rename_i other heq
      split at h
      · simp only [Except.ok.injEq, Prod.mk.injEq] at h
        exact Or.inl ⟨h.1.symm, h.2.symm⟩
      · rename_i hneq
        split at h
        · exact absurd h (by simp)
        · rename_i rt hfind
          have hres : (pairedDB db t other now nm ng).tickets.find?
              (fun x => decide (x.id = t.id))
              = some (if t.id = t.id ∨ t.id = other.id
                  then matchedTicket t now nm else t) := by
            exact find?_map_id
              (fun x => by
                show (if x.id = t.id ∨ x.id = other.id
                  then matchedTicket x now nm else x).id = x.id
                split <;> rfl) hmem hnodup
          rw [if_pos (Or.inl rfl)] at hres
          rw [hres] at hfind
          injection hfind with hrt
          simp only [Except.ok.injEq, Prod.mk.injEq] at h
          exact Or.inr ⟨other, heq, not_not.mp hq, hneq,
            h.1.symm.trans hrt.symm, h.2.symm⟩

theorem singleton_sweep {db : DB} {p : Nat} {a : TicketRow} {now : Nat}
    (hs : ActiveSingleton p db a)
    (hkeep : a.status = TicketStatus.matched ∨ now ≤ a.expires_at) :
    ActiveSingleton p (expire_stale_tickets now db) a := by
  obtain ⟨hmem, hact, hall, hnodup⟩ := hs
  have hswa : sweepOne now a = a := sweepOne_eq_self hkeep
  refine ⟨?_, hact, ?_, ?_⟩
  · have : sweepOne now a ∈ db.tickets.map (sweepOne now) :=
      List.mem_map.mpr ⟨a, hmem, rfl⟩
    rw [hswa] at this
    exact this
  · intro t1 ht1 hact1
    obtain ⟨x, hx, hfx⟩ := List.mem_map.mp ht1
    have hxact : activeFor p x = true := sweepOne_active (hfx ▸ hact1)
    have hxa : x = a := hall x hx hxact
    rw [← hfx, hxa, hswa]
  · exact map_id_nodup (sweepOne_id now) hnodup

theorem singleton_refresh {db : DB} {p : Nat} {a : TicketRow} {now : Nat}
    (hs : ActiveSingleton p db a) :
    ActiveSingleton p
      { db with tickets := db.tickets.map (fun x =>
          if x.id = a.id then refreshTicket x now else x) }
      (refreshTicket a now) := by
  obtain ⟨hmem, hact, hall, hnodup⟩ := hs
  have hid : ∀ x : TicketRow,
      ((fun x => if x.id = a.id then refreshTicket x now else x) x).id = x.id := by
    intro x
    show (if x.id = a.id then refreshTicket x now else x).id = x.id
    split <;> rfl
  have hactR : ∀ x : TicketRow, activeFor p (refreshTicket x now) = activeFor p x := by
    intro x
    simp [activeFor, refreshTicket]
  refine ⟨?_, ?_, ?_, ?_⟩
  · exact List.mem_map.mpr ⟨a, hmem, by rw [if_pos rfl]⟩
  · rw [hactR]
    exact hact
  · intro t1 ht1 hact1
    obtain ⟨x, hx, hfx⟩ := List.mem_map.mp ht1
    by_cases hxa : x.id = a.id
    · have : x = a := eq_of_mem_of_id_eq hnodup hx hmem hxa
      rw [← hfx, if_pos hxa, this]
    · rw [if_neg hxa] at hfx
      have : x = a := hall x hx (by rw [hfx]; exact hact1)
      exact absurd (this ▸ rfl) hxa
  · exact map_id_nodup hid hnodup

theorem singleton_insert {db : DB} {p now i1 : Nat}
    (hnone : ∀ x ∈ db.tickets, activeFor p x = false)
    (hnodup : (db.tickets.map TicketRow.id).Nodup)
    (hfresh : ∀ x ∈ db.tickets, x.id ≠ i1) :
    ActiveSingleton p
      { db with tickets := db.tickets ++ [newTicket p now i1] }
      (newTicket p now i1) := by
  refine ⟨?_, by simp [activeFor, newTicket], ?_, ?_⟩
  · exact List.mem_append_right _ (List.mem_singleton.mpr rfl)
  · intro t1 ht1 hact1
    rcases List.mem_append.mp ht1 with hin | hnew
    · rw [hnone t1 hin] at hact1
      cases hact1
    · exact List.mem_singleton.mp hnew
  · rw [List.map_append, List.nodup_append]
    refine ⟨hnodup, List.nodup_singleton _, ?_⟩
    intro x hx hx1
    simp only [List.map_cons, List.map_nil, List.mem_singleton] at hx1
    obtain ⟨y, hy, hfy⟩ := List.mem_map.mp hx
    exact hfresh y hy (by rw [← hfy] at hx1; exact hx1 ▸ hx1)

theorem singleton_paired {db : DB} {p : Nat} {t other : TicketRow}
    {now nm ng : Nat}
    (hs : ActiveSingleton p db t)
    (hother : other ∈ db.tickets)
    (hop : other.player_id ≠ p) :
    ActiveSingleton p (pairedDB db t other now nm ng)
      (matchedTicket t now nm) := by
  obtain ⟨hmem, hact, hall, hnodup⟩ := hs
  have htp : t.player_id = p := (activeFor_decomp hact).1
  have hid : ∀ x : TicketRow,
      ((fun x => if x.id = t.id ∨ x.id = other.id
          then matchedTicket x now nm else x) x).id = x.id := by
    intro x
    show (if x.id = t.id ∨ x.id = other.id
        then matchedTicket x now nm else x).id = x.id
    split <;> rfl
  refine ⟨?_, ?_, ?_, ?_⟩
  · exact List.mem_map.mpr ⟨t, hmem, by rw [if_pos (Or.inl rfl)]⟩
  · simp [activeFor, matchedTicket, htp]
  · intro t1 ht1 hact1
    obtain ⟨x, hx, hfx⟩ := List.mem_map.mp ht1
    by_cases hxc : x.id = t.id ∨ x.id = other.id
    · rcases hxc with hxt | hxo
      · have : x = t := eq_of_mem_of_id_eq hnodup hx hmem hxt
        rw [← hfx, if_pos (Or.inl hxt), this]
      · have hxeq : x = other := eq_of_mem_of_id_eq hnodup hx hother hxo
        rw [← hfx, if_pos (Or.inr hxo)] at hact1
        have := (activeFor_decomp hact1).1
        simp only [matchedTicket] at this
        exact absurd (hxeq ▸ this) hop
    · rw [if_neg hxc] at hfx
      have hxt : x = t := hall x hx (by rw [hfx]; exact hact1)
      exact absurd (Or.inl (hxt ▸ rfl)) hxc
  · exact map_id_nodup hid hnodup

theorem post_try_pair_common {db2 : DB} {t : TicketRow} {p now m1 g1 : Nat}
    {t3 : TicketRow} {db3 : DB}
    (hsing2 : ActiveSingleton p db2 t)
    (hqexp : t.status = TicketStatus.queued →
      t.expires_at = now + TICKET_TTL_SECONDS)
    (heq2 : try_pair_ticket db2 t now m1 g1 = Except.ok (t3, db3)) :
    ActiveSingleton p db3 t3 ∧ t3.id = t.id
      ∧ (t3.status = TicketStatus.queued →
          t3.expires_at = now + TICKET_TTL_SECONDS)
      ∧ (t3.expires_at = t.expires_at
          ∨ t3.expires_at = now + TICKET_TTL_SECONDS) := by
  rcases try_pair_post heq2 hsing2.1 hsing2.2.2.2 with
    ⟨ht3, hdb3⟩ | ⟨other, hcand, hq, hne, ht3, hdb3⟩
  · subst ht3
    subst hdb3
    exact ⟨hsing2, rfl, hqexp, Or.inl rfl⟩
  · subst ht3
    subst hdb3
    have hop : other.player_id ≠ p := by
      have htp : t.player_id = p := (activeFor_decomp hsing2.2.1).1
      rw [← htp]
      exact hne
    exact ⟨singleton_paired hsing2 (pairCandidate_mem hcand).1 hop, rfl,
      fun _ => rfl, Or.inr rfl⟩

theorem enqueue_post {db : DB} {p now i1 m1 g1 : Nat} {r1 : TicketResponse}
    {db1 : DB}
    (hn : (db.tickets.map TicketRow.id).Nodup)
    (hu : UniqueActiveFor p db)
    (hfresh : ∀ t ∈ db.tickets, t.id ≠ i1)
    (h : enqueue_player_for_matchmaking db p now i1 m1 g1 = Except.ok (r1, db1)) :
    ∃ a, ActiveSingleton p db1 a
      ∧ r1.ticket_id = a.id ∧ r1.expires_at = a.expires_at
      ∧ r1.status = a.status
      ∧ (a.status = TicketStatus.queued →
          a.expires_at = now + TICKET_TTL_SECONDS)
      ∧ (r1.ticket_id = i1 ↔
          ∀ x ∈ (expire_stale_tickets now db).tickets,
            activeFor p x = false) := by
  have hnS : ((expire_stale_tickets now db).tickets.map TicketRow.id).Nodup :=
    map_id_nodup (sweepOne_id now) hn
  have huS : ∀ t1 ∈ (expire_stale_tickets now db).tickets,
      ∀ t2 ∈ (expire_stale_tickets now db).tickets,
      activeFor p t1 = true → activeFor p t2 = true → t1 = t2 := by
    intro t1 ht1 t2 ht2 h1 h2
    obtain ⟨x1, hx1, hf1⟩ := List.mem_map.mp ht1
    obtain ⟨x2, hx2, hf2⟩ := List.mem_map.mp ht2
    have e := hu x1 hx1 x2 hx2 (sweepOne_active (hf1 ▸ h1))
      (sweepOne_active (hf2 ▸ h2))
    rw [← hf1, ← hf2, e]
  have hfreshS : ∀ x ∈ (expire_stale_tickets now db).tickets, x.id ≠ i1 := by
    intro x hx
    obtain ⟨y, hy, hfy⟩ := List.mem_map.mp hx
    rw [← hfy, sweepOne_id]
    exact hfresh y hy
  unfold enqueue_player_for_matchmaking at h
  split at h
  · exact absurd h (by simp)
  · rename_i t db2 heq
    split at h
    · exact absurd h (by simp)
    · rename_i t3 db3 heq2
      simp only [Except.ok.injEq, Prod.mk.injEq] at h
      obtain ⟨hr1, hdb⟩ := h
      subst hdb
      subst hr1
      -- derive the per-branch facts of ensure_player_ticket
      have hmain : ActiveSingleton p db2 t
          ∧ (t.status = TicketStatus.queued →
              t.expires_at = now + TICKET_TTL_SECONDS)
          ∧ (t.id = i1 ↔
              ∀ x ∈ (expire_stale_tickets now db).tickets,
                activeFor p x = false) := by
        unfold ensure_player_ticket at heq
        split at heq
        · rename_i a0 hA
          have ha0 := activeTicketFor_mem hA
          have hallS : ∀ x ∈ (expire_stale_tickets now db).tickets,
              activeFor p x = true → x = a0 :=
            fun x hx hact => huS x hx a0 ha0.1 hact ha0.2
          have hiff : ∀ tid, tid = a0.id →
              (tid = i1 ↔ ∀ x ∈ (expire_stale_tickets now db).tickets,
                activeFor p x = false) := by
            intro tid htid
            refine iff_of_false (htid ▸ hfreshS a0 ha0.1) ?_
            intro hall2
            exact Bool.noConfusion (ha0.2.symm.trans (hall2 a0 ha0.1))
          split at heq
          · rename_i hq0
            simp only [Except.ok.injEq, Prod.mk.injEq] at heq
            obtain ⟨he1, he2⟩ := heq
            subst he1
            subst he2
            exact ⟨singleton_refresh ⟨ha0.1, ha0.2, hallS, hnS⟩,
              fun _ => rfl, hiff _ rfl⟩
          · rename_i hq0
            simp only [Except.ok.injEq, Prod.mk.injEq] at heq
            obtain ⟨he1, he2⟩ := heq
            subst he1
            subst he2
            refine ⟨⟨ha0.1, ha0.2, hallS, hnS⟩, ?_, hiff _ rfl⟩
            intro hq
            exact absurd hq hq0
        · rename_i hA
          have hnone := activeTicketFor_none hA
          split at heq
          · rename_i hany
            exfalso
            obtain ⟨x, hx, hpx⟩ := List.any_eq_true.mp hany
            exact Bool.noConfusion (hpx.symm.trans (hnone x hx))
          · simp only [Except.ok.injEq, Prod.mk.injEq] at heq
            obtain ⟨he1, he2⟩ := heq
            subst he1
            subst he2
            exact ⟨singleton_insert hnone hnS hfreshS, fun _ => rfl,
              iff_of_true rfl hnone⟩
      obtain ⟨hsing2, hqexp, hiff⟩ := hmain
      obtain ⟨hsing3, hid3, hqexp3, _⟩ :=
        post_try_pair_common hsing2 hqexp heq2
      refine ⟨t3, hsing3, rfl, rfl, rfl, hqexp3, ?_⟩
      show t3.id = i1 ↔ _
      rw [hid3]
      exact hiff

theorem enqueue_on_singleton {db1 : DB} {p now2 i2 m2 g2 : Nat}
    {r2 : TicketResponse} {db2 : DB} {a : TicketRow}
    (hs : ActiveSingleton p db1 a)
    (hkeep : a.status = TicketStatus.queued → now2 ≤ a.expires_at)
    (h : enqueue_player_for_matchmaking db1 p now2 i2 m2 g2
      = Except.ok (r2, db2)) :
    r2.ticket_id = a.id
    ∧ (a.status = TicketStatus.matched → r2.expires_at = a.expires_at)
    ∧ (a.status = TicketStatus.queued →
        r2.expires_at = now2 + TICKET_TTL_SECONDS) := by
  have hdec := activeFor_decomp hs.2.1
  have hkeep2 : a.status = TicketStatus.matched ∨ now2 ≤ a.expires_at := by
    rcases hdec.2 with hq | hm
    · exact Or.inr (hkeep hq)
    · exact Or.inl hm
  have hsS : ActiveSingleton p (expire_stale_tickets now2 db1) a :=
    singleton_sweep hs hkeep2
  have hAT : activeTicketFor (expire_stale_tickets now2 db1) p = some a :=
    activeTicketFor_of_unique hsS.1 hsS.2.1 hsS.2.2.1
  unfold enqueue_player_for_matchmaking at h
  split at h
  · exact absurd h (by simp)
  · rename_i t db2a heq
    split at h
    · exact absurd h (by simp)
    · rename_i t3 db3 heq2
      simp only [Except.ok.injEq, Prod.mk.injEq] at h
      obtain ⟨hr2, hdb⟩ := h
      subst hdb
      subst hr2
      unfold ensure_player_ticket at heq
      simp only [hAT] at heq
      rcases hdec.2 with hq | hm
      · rw [if_pos hq] at heq
        simp only [Except.ok.injEq, Prod.mk.injEq] at heq
        obtain ⟨he1, he2⟩ := heq
        subst he1
        subst he2
        obtain ⟨hsing3, hid3, hqexp3, hexp3⟩ :=
          post_try_pair_common (singleton_refresh hsS) (fun _ => rfl) heq2
        refine ⟨?_, ?_, ?_⟩
        · show t3.id = a.id
          rw [hid3]
          rfl
        · intro hma
          exact absurd (hq.symm.trans hma) (by decide)
        · intro _
          show t3.expires_at = now2 + TICKET_TTL_SECONDS
          rcases hexp3 with he | he
          · rw [he]
            rfl
          · exact he
      · rw [if_neg (fun hqq => TicketStatus.noConfusion (hm.symm.trans hqq))]
          at heq
        simp only [Except.ok.injEq, Prod.mk.injEq] at heq
        obtain ⟨he1, he2⟩ := heq
        subst he1
        subst he2
        rcases try_pair_post heq2 hsS.1 hsS.2.2.2 with
          ⟨ht3, hdb3⟩ | ⟨other, hcand, hq2, _, _, _⟩
        · subst ht3
          subst hdb3
          refine ⟨rfl, fun _ => rfl, ?_⟩
          intro hqa
          exact absurd (hm.symm.trans hqa) (by decide)
        · exact absurd (hm.symm.trans hq2) (by decide)

/-- Claim C6 fails on the code: with lazy expiry, a second enqueue made
after the TTL has elapsed (here 100 seconds later, TTL = 30) finds the first
ticket swept to expired and creates a ticket with a fresh id, although no
pairing intervened. -/
theorem C6_counterexample :
    ∃ pr1, enqueue_player_for_matchmaking dbEmpty 1 0 11 91 81 = Except.ok pr1
      ∧ pr1.1.ticket_id = 11
      ∧ ∃ pr2, enqueue_player_for_matchmaking pr1.2 1 100 12 92 82
            = Except.ok pr2
          ∧ pr2.1.ticket_id = 12
          ∧ pr2.2.matchRows = []
          ∧ pr2.1.ticket_id ≠ pr1.1.ticket_id := by
  exact ⟨_, rfl, rfl, ⟨_, rfl, rfl, rfl, by decide⟩⟩

/-- Claim C6 amended: under the store-enforced invariants (distinct ticket
ids and at most one active ticket per player), repeated enqueue calls return
the same ticket id with non-decreasing expires_at provided each later call
happens no later than the previously returned expires_at (so the ticket has
not lazily expired; the counterexample shows the id changes otherwise); and
an enqueue creates a ticket with the fresh id exactly when the player holds
no queued or matched ticket once the expiry sweep has run. -/
theorem C6_amended :
    (∀ db p now1 now2 i1 m1 g1 i2 m2 g2 r1 db1 r2 db2,
        (db.tickets.map TicketRow.id).Nodup →
        UniqueActiveFor p db →
        (∀ t ∈ db.tickets, t.id ≠ i1) →
        now1 ≤ now2 →
        enqueue_player_for_matchmaking db p now1 i1 m1 g1
          = Except.ok (r1, db1) →
        now2 ≤ r1.expires_at →
        enqueue_player_for_matchmaking db1 p now2 i2 m2 g2
          = Except.ok (r2, db2) →
        r2.ticket_id = r1.ticket_id ∧ r1.expires_at ≤ r2.expires_at)
    ∧ (∀ db p now i1 m1 g1 r1 db1,
        (db.tickets.map TicketRow.id).Nodup →
        UniqueActiveFor p db →
        (∀ t ∈ db.tickets, t.id ≠ i1) →
        enqueue_player_for_matchmaking db p now i1 m1 g1
          = Except.ok (r1, db1) →
        (r1.ticket_id = i1 ↔
          ∀ x ∈ (expire_stale_tickets now db).tickets,
            activeFor p x = false)) := by
  constructor
  · intro db p now1 now2 i1 m1 g1 i2 m2 g2 r1 db1 r2 db2 hn hu hfresh h12 h1
      hne h2
    obtain ⟨a, hsing, hid, hexp, hstat, hqexp, _⟩ := enqueue_post hn hu hfresh h1
    have hkeep : a.status = TicketStatus.queued → now2 ≤ a.expires_at := by
      intro _
      rw [← hexp]
      exact hne
    obtain ⟨hid2, hmexp2, hqexp2⟩ := enqueue_on_singleton hsing hkeep h2
    constructor
    · rw [hid2, hid]
    · rcases (activeFor_decomp hsing.2.1).2 with hq | hm
      · rw [hqexp2 hq, hexp, hqexp hq]
        omega
      · rw [hmexp2 hm, hexp]
  · intro db p now i1 m1 g1 r1 db1 hn hu hfresh h1
    obtain ⟨a, _, _, _, _, _, hiff⟩ := enqueue_post hn hu hfresh h1
    exact hiff

/-- Witness for C6 amended: a first enqueue at time 0 and a second at time
10 answer the same ticket id with expiry extended from 30 to 40. -/
theorem C6_amended_witness :
    respSecondEnqueue.ticket_id = respFirstEnqueue.ticket_id
      ∧ respFirstEnqueue.expires_at ≤ respSecondEnqueue.expires_at :=
  C6_amended.1 dbEmpty 1 0 10 11 91 81 12 92 82
    respFirstEnqueue dbAfterFirstEnqueue respSecondEnqueue dbAfterSecondEnqueue
    (by simp [dbEmpty])
    (fun t1 ht1 => absurd ht1 (List.not_mem_nil t1))
    (fun t ht => absurd ht (List.not_mem_nil t))
    (by decide) rfl (by decide) rfl

end ARChess
